import Mathlib

/-!
Verification of the WEBXR-AR repository's spatial placement-and-manipulation
engine, shallowly embedded in Lean 4.

Two variants are modelled:
* `Room`: the room-configurator (gizmo drag with room-limits and obstacle
  collision checks, snap-back to the last known-good transform);
* `AR`: the WebXR variant (reticle placement, pinch/twist gestures,
  drag-then-tap debounce).

Coordinates are exact rationals.  The two transcendental library calls the
source makes (`Math.sqrt` in the pinch-distance computation and `Math.atan2`
in the twist computation) are abstracted as explicit function parameters of
the handlers; the reticle-distance test `distance > threshold` is embedded as
the equivalent comparison of the squared distance against the squared
threshold, and the equivalence with `Real.sqrt` is proved
(`rat_lt_sqrt_iff`).
-/

/-- Three.js `Vector3` (also used for Euler angles, whose `copy` copies the
three components). -/
structure Vec3 where
  x : ℚ
  y : ℚ
  z : ℚ
  deriving DecidableEq

/-- Squared Euclidean distance between two points; three.js
`Vector3.distanceTo` is the square root of this quantity. -/
def distSq (a b : Vec3) : ℚ :=
  (a.x - b.x) * (a.x - b.x) + (a.y - b.y) * (a.y - b.y) + (a.z - b.z) * (a.z - b.z)

namespace Room

/-- Three.js `Box3`: an axis-aligned box given by its two corners. -/
structure Box3 where
  min : Vec3
  max : Vec3
  deriving DecidableEq

/-- Shape of the `roomLimits` constant. -/
structure Limits where
  minX : ℚ
  maxX : ℚ
  minZ : ℚ
  maxZ : ℚ

/-- The room limits constant of the configurator. -/
def roomLimits : Limits :=
  { minX := -3.25, maxX := 3.25, minZ := -3.92, maxZ := 2.8 }

/-- The room-boundary test of the `change` listener: `isOutside`. -/
def isOutside (b : Box3) : Bool :=
  decide (b.min.x < roomLimits.minX) || decide (b.max.x > roomLimits.maxX) ||
  decide (b.min.z < roomLimits.minZ) || decide (b.max.z > roomLimits.maxZ)

/-- Three.js `Box3.intersectsBox`: boxes are disjoint iff they are strictly
separated on some axis (touching boxes intersect). -/
def intersectsBox (self other : Box3) : Bool :=
  !(decide (other.max.x < self.min.x) || decide (other.min.x > self.max.x) ||
    decide (other.max.y < self.min.y) || decide (other.min.y > self.max.y) ||
    decide (other.max.z < self.min.z) || decide (other.min.z > self.max.z))

/-- The Almirah test of the `change` listener:
`almirahBox ? boxHelper.intersectsBox(almirahBox) : false`. -/
def hitsAlmirah (almirahBox : Option Box3) (b : Box3) : Bool :=
  match almirahBox with
  | some ab => intersectsBox b ab
  | none => false

/-- The mutable transform state of the configurator: the model's transform
plus the last-known-good snapshot (`lastValidPosition`, `lastValidRotation`).
Scale is carried along but never manipulated in this variant. -/
structure RoomState where
  pos : Vec3
  rot : Vec3
  scl : Vec3
  lastValidPosition : Vec3
  lastValidRotation : Vec3
  deriving DecidableEq

/-- The rejection condition of the `change` listener, as the code computes it
(`isOutside || hitsAlmirah`) on the box recomputed from the proposed
transform.  `bbox` abstracts `Box3.setFromObject` as a function of the
object's transform. -/
def rejected (bbox : Vec3 → Vec3 → Vec3 → Box3) (almirahBox : Option Box3)
    (p r scl : Vec3) : Bool :=
  let b := bbox p r scl
  isOutside b || hitsAlmirah almirahBox b

/-- The `change` listener of the transform control: recompute the bounding
box, check room limits and the Almirah box, then either revert position and
rotation to the last valid snapshot or commit the current transform into the
snapshot. -/
def onChange (bbox : Vec3 → Vec3 → Vec3 → Box3) (almirahBox : Option Box3)
    (s : RoomState) : RoomState :=
  let b := bbox s.pos s.rot s.scl
  let isOut := isOutside b
  let hits := hitsAlmirah almirahBox b
  if isOut || hits then
    { s with pos := s.lastValidPosition, rot := s.lastValidRotation }
  else
    { s with lastValidPosition := s.pos, lastValidRotation := s.rot }

/-- One gizmo-drag frame: the control writes the proposed position and
rotation into the model, then fires the `change` listener. -/
def gizmoFrame (bbox : Vec3 → Vec3 → Vec3 → Box3) (almirahBox : Option Box3)
    (s : RoomState) (pr : Vec3 × Vec3) : RoomState :=
  onChange bbox almirahBox { s with pos := pr.1, rot := pr.2 }

/-- A whole interaction: a sequence of proposed transforms processed by
successive gizmo frames. -/
def runRoom (bbox : Vec3 → Vec3 → Vec3 → Box3) (almirahBox : Option Box3)
    (s : RoomState) (evs : List (Vec3 × Vec3)) : RoomState :=
  evs.foldl (gizmoFrame bbox almirahBox) s

/-- `loadProduct` after the GLB resolves: the fresh scene (position `(0,0,0)`,
rotation `(0,0,0)`, scale `(1,1,1)`) is centered (`position.sub(center)` then
`position.y = 0`) and that transform is saved as the initial valid state. -/
def loadProduct (center : Vec3) : RoomState :=
  let p0 : Vec3 := ⟨-center.x, 0, -center.z⟩
  { pos := p0, rot := ⟨0, 0, 0⟩, scl := ⟨1, 1, 1⟩,
    lastValidPosition := p0, lastValidRotation := ⟨0, 0, 0⟩ }

/-- Substring test on character lists, modelling the JS
`String.prototype.includes` call `child.name.includes(pat)`. -/
def strHasSub (pat : List Char) : List Char → Bool
  | [] => pat.isEmpty
  | c :: rest => pat.isPrefixOf (c :: rest) || strHasSub pat rest

/-- Does a mesh name contain the substring `Almirah`? -/
def nameHasAlmirah (name : String) : Bool :=
  strHasSub "Almirah".data name.data

/-- A mesh of the loaded room: its name and the box computed from it at load
time. -/
structure Mesh where
  name : String
  box : Box3

/-- The Almirah-discovery part of `loadCustomRoom`'s traverse: `almirahBox`
starts `null` and is overwritten by the box of each mesh whose name contains
`Almirah` (the last such mesh wins). -/
def loadCustomRoom (meshes : List Mesh) : Option Box3 :=
  meshes.foldl (fun acc m => if nameHasAlmirah m.name then some m.box else acc) none

/-- Spec-side rejection condition: the box crosses the room-limits rectangle
on one of the two horizontal axes (each face checked independently), or it
overlaps the obstacle box on all three axes. -/
def rejectedSpec (b : Box3) (almirahBox : Option Box3) : Prop :=
  b.min.x < roomLimits.minX ∨ b.max.x > roomLimits.maxX ∨
  b.min.z < roomLimits.minZ ∨ b.max.z > roomLimits.maxZ ∨
  (∃ ab, almirahBox = some ab ∧
    (b.min.x ≤ ab.max.x ∧ ab.min.x ≤ b.max.x) ∧
    (b.min.y ≤ ab.max.y ∧ ab.min.y ≤ b.max.y) ∧
    (b.min.z ≤ ab.max.z ∧ ab.min.z ≤ b.max.z))

/-- The last-known-good invariant: the snapshot is either the initial
post-centering transform or a transform the validator accepted (at the
state's scale, which this variant never changes). -/
def SnapOK (bbox : Vec3 → Vec3 → Vec3 → Box3) (almirahBox : Option Box3)
    (p0 r0 : Vec3) (s : RoomState) : Prop :=
  (s.lastValidPosition = p0 ∧ s.lastValidRotation = r0) ∨
  rejected bbox almirahBox s.lastValidPosition s.lastValidRotation s.scl = false

/-- Concrete bounding-box function used by the witnesses: a unit-footprint
box centered on the object's position. -/
def exBBox : Vec3 → Vec3 → Vec3 → Box3 :=
  fun p _ _ => ⟨⟨p.x - 1/2, 0, p.z - 1/2⟩, ⟨p.x + 1/2, 1, p.z + 1/2⟩⟩

/-- Concrete state used by the witnesses. -/
def exState : RoomState :=
  { pos := ⟨0, 0, 0⟩, rot := ⟨0, 0, 0⟩, scl := ⟨1, 1, 1⟩,
    lastValidPosition := ⟨1, 0, 1⟩, lastValidRotation := ⟨0, 1/2, 0⟩ }

end Room

namespace AR

/-- One touch point (the `clientX`/`clientY` fields the handlers read). -/
structure Touch where
  clientX : ℚ
  clientY : ℚ
  deriving DecidableEq

/-- The transform of the manipulable object: position, yaw (`rotation.y`,
the only rotation component the AR variant touches) and scale. -/
structure ARObject where
  pos : Vec3
  rotY : ℚ
  scale : Vec3
  deriving DecidableEq

/-- The module-level mutable state of `main.js` that the interaction logic
reads and writes.  `pendingClear` records that a `touchend` has scheduled the
100 ms `setTimeout` that will clear the gesture flags; `placedCount` counts
the clones added to the scene by `onSelect`. -/
structure ARState where
  isDragging : Bool
  isTwoFinger : Bool
  initialDistance : ℚ
  initialScale : Vec3
  initialAngle : ℚ
  initialModelRotation : ℚ
  currentModel : Option ARObject
  loadedGLTF : Option ARObject
  reticleVisible : Bool
  reticlePos : Vec3
  placedCount : Nat
  pendingClear : Bool
  deriving DecidableEq

/-- The `touchstart` listener.  `sq` abstracts `Math.sqrt` and `at2`
abstracts `Math.atan2` (applied to the already-formed radicand and to
`(dy, dx)` respectively). -/
def onTouchStart (sq : ℚ → ℚ) (at2 : ℚ → ℚ → ℚ) (s : ARState)
    (touches : List Touch) : ARState :=
  match s.currentModel with
  | none => s
  | some m =>
    match touches with
    | [_] => { s with isDragging := true, isTwoFinger := false }
    | [t0, t1] =>
      let dx := t0.clientX - t1.clientX
      let dy := t0.clientY - t1.clientY
      { s with
        isDragging := false, isTwoFinger := true,
        initialDistance := sq (dx * dx + dy * dy),
        initialScale := m.scale,
        initialAngle := at2 dy dx,
        initialModelRotation := m.rotY }
    | _ => s

/-- The `touchmove` listener: on a two-finger frame of an active two-finger
gesture, set a uniform clamped scale and the twist-adjusted yaw. -/
def onTouchMove (sq : ℚ → ℚ) (at2 : ℚ → ℚ → ℚ) (s : ARState)
    (touches : List Touch) : ARState :=
  match s.currentModel with
  | none => s
  | some m =>
    match touches with
    | [t0, t1] =>
      if s.isTwoFinger then
        let dx := t0.clientX - t1.clientX
        let dy := t0.clientY - t1.clientY
        let currentDistance := sq (dx * dx + dy * dy)
        let scaleFactor := currentDistance / s.initialDistance
        let newScale := max 0.1 (min (s.initialScale.x * scaleFactor) 5.0)
        let currentAngle := at2 dy dx
        let angleDiff := currentAngle - s.initialAngle
        let m2 := { m with scale := ⟨newScale, newScale, newScale⟩,
                           rotY := s.initialModelRotation - angleDiff }
        { s with currentModel := some m2 }
      else s
    | _ => s

/-- The `touchend` listener: it only schedules the flag-clearing timeout. -/
def onTouchEnd (s : ARState) : ARState :=
  { s with pendingClear := true }

/-- The body of the 100 ms `setTimeout` scheduled by `touchend`. -/
def clearFlags (s : ARState) : ARState :=
  { s with isDragging := false, isTwoFinger := false, pendingClear := false }

/-- The `select` listener: ignored while dragging; otherwise, with a visible
reticle and a loaded template, re-anchor the existing model or clone the
template at the reticle's position and add it to the scene. -/
def onSelect (s : ARState) : ARState :=
  if s.isDragging then s
  else if s.reticleVisible then
    match s.loadedGLTF with
    | none => s
    | some tpl =>
      match s.currentModel with
      | some m => { s with currentModel := some { m with pos := s.reticlePos } }
      | none =>
        { s with currentModel := some { tpl with pos := s.reticlePos },
                 placedCount := s.placedCount + 1 }
  else s

/-- `shouldShowReticle` of the gesture-enabled deployment: always show when
no model is placed, otherwise show iff the distance between the reticle and
the model exceeds 0.6.  The source compares
`workingVec.distanceTo(currentModel.position) > 0.6`; since the distance is
the square root of `distSq`, this equals the comparison
`distSq > 0.36 = 9/25` (lemma `rat_lt_sqrt_iff` below). -/
def shouldShowReticle (s : ARState) : Bool :=
  match s.currentModel with
  | none => true
  | some m => decide ((9/25 : ℚ) < distSq s.reticlePos m.pos)

/-- `shouldShowReticle` of the second deployment of `main.js` (threshold
`distance > 0.5`, i.e. `distSq > 0.25 = 1/4`), as a function of the placed
model's position and the reticle position. -/
def shouldShowReticleBasic (currentModel : Option Vec3) (reticlePos : Vec3) : Bool :=
  match currentModel with
  | none => true
  | some p => decide ((1/4 : ℚ) < distSq reticlePos p)

/-- The reticle section of the `render` loop, given the position of this
frame's first hit-test result (or `none`): the reticle matrix is updated
first, then visibility is decided. -/
def renderReticle (s : ARState) (hit : Option Vec3) : ARState :=
  match hit with
  | some hp =>
    let s1 := { s with reticlePos := hp }
    if shouldShowReticle s1 then { s1 with reticleVisible := true }
    else { s1 with reticleVisible := false }
  | none => { s with reticleVisible := false }

/-- The events the AR interaction state reacts to.  `timerE` is the firing of
the `setTimeout` scheduled by `touchend`; a `selectE` occurring before the
`timerE` of the preceding `touchendE` is a select inside the 100 ms cool-down
window. -/
inductive AREvent where
  | touchstartE (touches : List Touch)
  | touchmoveE (touches : List Touch)
  | touchendE
  | timerE
  | selectE
  | renderE (hit : Option Vec3)

/-- Dispatch one event to the corresponding handler. -/
def arStep (sq : ℚ → ℚ) (at2 : ℚ → ℚ → ℚ) (s : ARState) : AREvent → ARState
  | AREvent.touchstartE ts => onTouchStart sq at2 s ts
  | AREvent.touchmoveE ts => onTouchMove sq at2 s ts
  | AREvent.touchendE => onTouchEnd s
  | AREvent.timerE => clearFlags s
  | AREvent.selectE => onSelect s
  | AREvent.renderE hit => renderReticle s hit

/-- Process a sequence of events. -/
def arRun (sq : ℚ → ℚ) (at2 : ℚ → ℚ → ℚ) (s : ARState) (evs : List AREvent) : ARState :=
  evs.foldl (arStep sq at2) s

/-- The clamp function as the spec states it. -/
def clampSpec (x lo hi : ℚ) : ℚ := min (max x lo) hi

/-- The clamped uniform scale a two-finger move frame computes. -/
def pinchScale (sq : ℚ → ℚ) (s : ARState) (t0 t1 : Touch) : ℚ :=
  max 0.1 (min (s.initialScale.x *
    (sq ((t0.clientX - t1.clientX) * (t0.clientX - t1.clientX) +
         (t0.clientY - t1.clientY) * (t0.clientY - t1.clientY)) /
      s.initialDistance)) 5.0)

/-- The object a two-finger move frame writes back. -/
def pinchResult (sq : ℚ → ℚ) (at2 : ℚ → ℚ → ℚ) (s : ARState) (t0 t1 : Touch)
    (m : ARObject) : ARObject :=
  { m with
    scale := ⟨pinchScale sq s t0 t1, pinchScale sq s t0 t1, pinchScale sq s t0 t1⟩,
    rotY := s.initialModelRotation -
      (at2 (t0.clientY - t1.clientY) (t0.clientX - t1.clientX) - s.initialAngle) }

/-- The placement invariant behind the at-most-one-object property. -/
def PlacedInv (s : ARState) : Prop :=
  s.placedCount ≤ 1 ∧ (s.currentModel = none → s.placedCount = 0)

/-- Concrete placed model used by the witnesses. -/
def exModel : ARObject := ⟨⟨5, 0, 5⟩, 0, ⟨1, 1, 1⟩⟩

/-- Concrete loaded template used by the witnesses. -/
def exTpl : ARObject := ⟨⟨0, 0, 0⟩, 0, ⟨2, 2, 2⟩⟩

/-- Concrete AR state used by the witnesses: a placed model, a loaded
template, a visible reticle away from the model, and a snapshot of an active
two-finger gesture. -/
def exAR : ARState :=
  { isDragging := false, isTwoFinger := true,
    initialDistance := 5, initialScale := ⟨1, 1, 1⟩, initialAngle := 0,
    initialModelRotation := 0,
    currentModel := some exModel,
    loadedGLTF := some exTpl,
    reticleVisible := true, reticlePos := ⟨1, 0, 1⟩,
    placedCount := 1, pendingClear := false }

/-- Concrete AR state with no placed object. -/
def exARUnplaced : ARState :=
  { exAR with currentModel := none, placedCount := 0, isTwoFinger := false }

end AR

/-- Comparing a nonnegative rational threshold with a real square root is the
same as comparing its square with the radicand. -/
theorem rat_lt_sqrt_iff (c q : ℚ) (hc : (0 : ℝ) ≤ (c : ℝ)) :
    ((c : ℝ) < Real.sqrt (q : ℝ)) ↔ ((c ^ 2 : ℚ) < q) := by
  rw [Real.lt_sqrt hc]
  constructor <;> intro h <;> exact_mod_cast h

namespace Room

/-- A gizmo frame either reverts to the snapshot or commits the proposal,
according to the rejection condition recomputed at the proposed transform. -/
theorem gizmoFrame_eq (bbox : Vec3 → Vec3 → Vec3 → Box3) (almirahBox : Option Box3)
    (s : RoomState) (p r : Vec3) :
    gizmoFrame bbox almirahBox s (p, r) =
      if rejected bbox almirahBox p r s.scl then
        { s with pos := s.lastValidPosition, rot := s.lastValidRotation }
      else
        { s with pos := p, rot := r, lastValidPosition := p, lastValidRotation := r } := rfl

theorem gizmoFrame_SnapOK (bbox : Vec3 → Vec3 → Vec3 → Box3) (almirahBox : Option Box3)
    (p0 r0 : Vec3) (s : RoomState) (pr : Vec3 × Vec3) (h : SnapOK bbox almirahBox p0 r0 s) :
    SnapOK bbox almirahBox p0 r0 (gizmoFrame bbox almirahBox s pr) := by
  obtain ⟨p, r⟩ := pr
  rw [gizmoFrame_eq]
  by_cases hc : rejected bbox almirahBox p r s.scl = true
  · simpa [hc, SnapOK] using h
  · simp only [Bool.not_eq_true] at hc
    simp [hc, SnapOK]

theorem runRoom_SnapOK (bbox : Vec3 → Vec3 → Vec3 → Box3) (almirahBox : Option Box3)
    (p0 r0 : Vec3) (s : RoomState) (evs : List (Vec3 × Vec3))
    (h : SnapOK bbox almirahBox p0 r0 s) :
    SnapOK bbox almirahBox p0 r0 (runRoom bbox almirahBox s evs) := by
  induction evs generalizing s with
  | nil => exact h
  | cons e rest ih =>
    simp only [runRoom, List.foldl_cons]
    exact ih _ (gizmoFrame_SnapOK bbox almirahBox p0 r0 s e h)

/-- Claim C1: when the recomputed bounding volume exits the room limits or
intersects the obstacle volume, the frame restores position and rotation
exactly from the last-known-good snapshot and leaves the scale untouched. -/
theorem change_rejection_restores (bbox : Vec3 → Vec3 → Vec3 → Box3)
    (almirahBox : Option Box3) (s : RoomState) (p r : Vec3)
    (hrej : rejected bbox almirahBox p r s.scl = true) :
    (gizmoFrame bbox almirahBox s (p, r)).pos = s.lastValidPosition ∧
    (gizmoFrame bbox almirahBox s (p, r)).rot = s.lastValidRotation ∧
    (gizmoFrame bbox almirahBox s (p, r)).scl = s.scl := by
  simp [gizmoFrame_eq, hrej]

theorem change_rejection_restores_witness :
    (gizmoFrame exBBox none exState (⟨4, 0, 0⟩, ⟨0, 0, 0⟩)).pos = exState.lastValidPosition ∧
    (gizmoFrame exBBox none exState (⟨4, 0, 0⟩, ⟨0, 0, 0⟩)).rot = exState.lastValidRotation ∧
    (gizmoFrame exBBox none exState (⟨4, 0, 0⟩, ⟨0, 0, 0⟩)).scl = exState.scl :=
  change_rejection_restores exBBox none exState ⟨4, 0, 0⟩ ⟨0, 0, 0⟩ (by
    simp [rejected, isOutside, hitsAlmirah, exBBox, exState, roomLimits]
    norm_num)

/-- Claim C2: the snapshot is written exactly on acceptance (and then equals
the accepted transform), never on rejection, and along any interaction after
`loadProduct` it is either the initial post-centering transform or a
transform that passed the validator. -/
theorem lastValid_commit_invariant (bbox : Vec3 → Vec3 → Vec3 → Box3)
    (almirahBox : Option Box3) (s : RoomState) (p r center : Vec3) :
    (rejected bbox almirahBox p r s.scl = false →
      (gizmoFrame bbox almirahBox s (p, r)).lastValidPosition = p ∧
      (gizmoFrame bbox almirahBox s (p, r)).lastValidRotation = r) ∧
    (rejected bbox almirahBox p r s.scl = true →
      (gizmoFrame bbox almirahBox s (p, r)).lastValidPosition = s.lastValidPosition ∧
      (gizmoFrame bbox almirahBox s (p, r)).lastValidRotation = s.lastValidRotation) ∧
    (∀ evs : List (Vec3 × Vec3),
      SnapOK bbox almirahBox ⟨-center.x, 0, -center.z⟩ ⟨0, 0, 0⟩
        (runRoom bbox almirahBox (loadProduct center) evs)) := by
  refine ⟨fun h => by simp [gizmoFrame_eq, h], fun h => by simp [gizmoFrame_eq, h],
    fun evs => ?_⟩
  exact runRoom_SnapOK bbox almirahBox _ _ _ evs (Or.inl ⟨rfl, rfl⟩)

theorem lastValid_commit_invariant_witness :
    (gizmoFrame exBBox none exState (⟨2, 0, 0⟩, ⟨0, 0, 0⟩)).lastValidPosition = ⟨2, 0, 0⟩ ∧
    (gizmoFrame exBBox none exState (⟨2, 0, 0⟩, ⟨0, 0, 0⟩)).lastValidRotation = ⟨0, 0, 0⟩ :=
  (lastValid_commit_invariant exBBox none exState ⟨2, 0, 0⟩ ⟨0, 0, 0⟩ ⟨0, 0, 0⟩).1 (by
    simp [rejected, isOutside, hitsAlmirah, exBBox, exState, roomLimits]
    norm_num)

/-- Claim C3: a proposed transform is rejected iff its recomputed box crosses
a room-limit face on a horizontal axis or overlaps the obstacle box on all
axes; otherwise it is accepted and committed. -/
theorem reject_iff_bounds_or_obstacle (bbox : Vec3 → Vec3 → Vec3 → Box3)
    (almirahBox : Option Box3) (s : RoomState) (p r : Vec3) :
    (rejected bbox almirahBox p r s.scl = true ↔
      rejectedSpec (bbox p r s.scl) almirahBox) ∧
    (rejectedSpec (bbox p r s.scl) almirahBox →
      gizmoFrame bbox almirahBox s (p, r) =
        { s with pos := s.lastValidPosition, rot := s.lastValidRotation }) ∧
    (¬ rejectedSpec (bbox p r s.scl) almirahBox →
      gizmoFrame bbox almirahBox s (p, r) =
        { s with pos := p, rot := r, lastValidPosition := p, lastValidRotation := r }) := by
  have hiff : rejected bbox almirahBox p r s.scl = true ↔
      rejectedSpec (bbox p r s.scl) almirahBox := by
    cases almirahBox with
    | none =>
      simp [rejected, rejectedSpec, isOutside, hitsAlmirah]
      tauto
    | some ab =>
      simp [rejected, rejectedSpec, isOutside, hitsAlmirah, intersectsBox, not_or, not_lt]
      tauto
  refine ⟨hiff, fun hspec => ?_, fun hspec => ?_⟩
  · simp [gizmoFrame_eq, hiff.mpr hspec]
  · cases h : rejected bbox almirahBox p r s.scl with
    | true => exact absurd (hiff.mp h) hspec
    | false => simp [gizmoFrame_eq, h]

theorem reject_iff_bounds_or_obstacle_witness :
    gizmoFrame exBBox none exState (⟨4, 0, 0⟩, ⟨0, 0, 0⟩) =
      { exState with pos := exState.lastValidPosition, rot := exState.lastValidRotation } :=
  (reject_iff_bounds_or_obstacle exBBox none exState ⟨4, 0, 0⟩ ⟨0, 0, 0⟩).2.1
    (Or.inr (Or.inl (by
      simp [exBBox, exState, roomLimits]
      norm_num)))

theorem loadCustomRoom_eq_none (meshes : List Mesh)
    (hno : ∀ m ∈ meshes, nameHasAlmirah m.name = false) :
    loadCustomRoom meshes = none := by
  induction meshes with
  | nil => rfl
  | cons m rest ih =>
    have h1 := hno m (List.mem_cons_self m rest)
    have h2 : loadCustomRoom rest = none :=
      ih fun x hx => hno x (List.mem_cons_of_mem m hx)
    simpa [loadCustomRoom, h1] using h2

/-- Claim C9: when no mesh name of the loaded room contains `Almirah`, the
obstacle box stays `none`, the obstacle test reports no collision, and a
proposed transform whose box stays inside the room limits is accepted. -/
theorem missing_almirah_safe (meshes : List Mesh) (bbox : Vec3 → Vec3 → Vec3 → Box3)
    (s : RoomState) (p r : Vec3)
    (hno : ∀ m ∈ meshes, nameHasAlmirah m.name = false) :
    loadCustomRoom meshes = none ∧
    hitsAlmirah (loadCustomRoom meshes) (bbox p r s.scl) = false ∧
    (isOutside (bbox p r s.scl) = false →
      gizmoFrame bbox (loadCustomRoom meshes) s (p, r) =
        { s with pos := p, rot := r, lastValidPosition := p, lastValidRotation := r }) := by
  have hnone := loadCustomRoom_eq_none meshes hno
  refine ⟨hnone, by rw [hnone]; rfl, fun hiso => ?_⟩
  rw [hnone]
  have hrej : rejected bbox none p r s.scl = false := by
    simp [rejected, hitsAlmirah, hiso]
  simp [gizmoFrame_eq, hrej]

theorem missing_almirah_safe_witness :
    loadCustomRoom [⟨"Wall", ⟨⟨0, 0, 0⟩, ⟨1, 1, 1⟩⟩⟩, ⟨"Floor", ⟨⟨0, 0, 0⟩, ⟨1, 1, 1⟩⟩⟩] = none ∧
    hitsAlmirah
      (loadCustomRoom [⟨"Wall", ⟨⟨0, 0, 0⟩, ⟨1, 1, 1⟩⟩⟩, ⟨"Floor", ⟨⟨0, 0, 0⟩, ⟨1, 1, 1⟩⟩⟩])
      (exBBox ⟨0, 0, 0⟩ ⟨0, 0, 0⟩ exState.scl) = false ∧
    (isOutside (exBBox ⟨0, 0, 0⟩ ⟨0, 0, 0⟩ exState.scl) = false →
      gizmoFrame exBBox
        (loadCustomRoom [⟨"Wall", ⟨⟨0, 0, 0⟩, ⟨1, 1, 1⟩⟩⟩, ⟨"Floor", ⟨⟨0, 0, 0⟩, ⟨1, 1, 1⟩⟩⟩])
        exState (⟨0, 0, 0⟩, ⟨0, 0, 0⟩) =
        { exState with pos := ⟨0, 0, 0⟩, rot := ⟨0, 0, 0⟩,
                       lastValidPosition := ⟨0, 0, 0⟩, lastValidRotation := ⟨0, 0, 0⟩ }) :=
  missing_almirah_safe _ exBBox exState ⟨0, 0, 0⟩ ⟨0, 0, 0⟩ (by
    intro m hm
    fin_cases hm <;> rfl)

end Room

namespace AR

theorem max_min_eq_clampSpec (x : ℚ) :
    max 0.1 (min x 5.0) = clampSpec x 0.1 5.0 := by
  have h : (0.1 : ℚ) ≤ 5.0 := by norm_num
  simp only [clampSpec, min_def, max_def]
  split_ifs <;> linarith

theorem clamp_bounds (x : ℚ) :
    (0.1 : ℚ) ≤ max 0.1 (min x 5.0) ∧ max 0.1 (min x 5.0) ≤ 5.0 :=
  ⟨le_max_left _ _, max_le (by norm_num) (min_le_right _ _)⟩

theorem onTouchStart_one (sq : ℚ → ℚ) (at2 : ℚ → ℚ → ℚ) (s : ARState) (t : Touch)
    (m : ARObject) (hm : s.currentModel = some m) :
    onTouchStart sq at2 s [t] = { s with isDragging := true, isTwoFinger := false } := by
  simp [onTouchStart, hm]

theorem onTouchStart_two (sq : ℚ → ℚ) (at2 : ℚ → ℚ → ℚ) (s : ARState) (a b : Touch)
    (m : ARObject) (hm : s.currentModel = some m) :
    onTouchStart sq at2 s [a, b] =
      { s with
        isDragging := false, isTwoFinger := true,
        initialDistance := sq ((a.clientX - b.clientX) * (a.clientX - b.clientX) +
          (a.clientY - b.clientY) * (a.clientY - b.clientY)),
        initialScale := m.scale,
        initialAngle := at2 (a.clientY - b.clientY) (a.clientX - b.clientX),
        initialModelRotation := m.rotY } := by
  simp [onTouchStart, hm]

theorem onTouchMove_two (sq : ℚ → ℚ) (at2 : ℚ → ℚ → ℚ) (s : ARState) (t0 t1 : Touch)
    (m : ARObject) (hm : s.currentModel = some m) (h2 : s.isTwoFinger = true) :
    onTouchMove sq at2 s [t0, t1] =
      { s with currentModel := some (pinchResult sq at2 s t0 t1 m) } := by
  simp [onTouchMove, hm, h2, pinchResult, pinchScale]

/-- Claim C4: on a two-finger move frame of an active gesture, the scale the
frame writes equals `clamp(initialScale.x * (currentDistance /
initialDistance), 0.1, 5.0)`, the same value on all three axes, and always
lies within `[0.1, 5.0]`. -/
theorem pinch_scale_clamped (sq : ℚ → ℚ) (at2 : ℚ → ℚ → ℚ) (s : ARState)
    (t0 t1 : Touch) (m : ARObject)
    (hm : s.currentModel = some m) (h2 : s.isTwoFinger = true) :
    ∃ m2, (onTouchMove sq at2 s [t0, t1]).currentModel = some m2 ∧
      m2.scale.x = clampSpec (s.initialScale.x *
        (sq ((t0.clientX - t1.clientX) * (t0.clientX - t1.clientX) +
             (t0.clientY - t1.clientY) * (t0.clientY - t1.clientY)) /
          s.initialDistance)) 0.1 5.0 ∧
      m2.scale.y = m2.scale.x ∧ m2.scale.z = m2.scale.x ∧
      (0.1 : ℚ) ≤ m2.scale.x ∧ m2.scale.x ≤ 5.0 := by
  rw [onTouchMove_two sq at2 s t0 t1 m hm h2]
  refine ⟨pinchResult sq at2 s t0 t1 m, rfl, ?_, rfl, rfl, ?_, ?_⟩
  · exact max_min_eq_clampSpec _
  · exact (clamp_bounds _).1
  · exact (clamp_bounds _).2

theorem pinch_scale_clamped_witness :
    ∃ m2, (onTouchMove (fun q => q) (fun _ _ => 0) exAR
        [⟨0, 0⟩, ⟨3, 4⟩]).currentModel = some m2 ∧
      m2.scale.x = clampSpec (exAR.initialScale.x *
        ((((0 : ℚ) - 3) * ((0 : ℚ) - 3) + ((0 : ℚ) - 4) * ((0 : ℚ) - 4)) /
          exAR.initialDistance)) 0.1 5.0 ∧
      m2.scale.y = m2.scale.x ∧ m2.scale.z = m2.scale.x ∧
      (0.1 : ℚ) ≤ m2.scale.x ∧ m2.scale.x ≤ 5.0 :=
  pinch_scale_clamped (fun q => q) (fun _ _ => 0) exAR ⟨0, 0⟩ ⟨3, 4⟩ exModel rfl rfl

/-- Claim C5: on a two-finger move frame following the gesture snapshot, the
yaw the frame writes equals the snapshot rotation minus the difference
between the `atan2` angle of the current two-touch segment and the `atan2`
angle of the snapshot's two-touch segment. -/
theorem twist_rotation_formula (sq : ℚ → ℚ) (at2 : ℚ → ℚ → ℚ) (s : ARState)
    (a b c d : Touch) (m : ARObject) (hm : s.currentModel = some m) :
    ∃ m2, (onTouchMove sq at2 (onTouchStart sq at2 s [a, b]) [c, d]).currentModel =
        some m2 ∧
      m2.rotY = m.rotY -
        (at2 (c.clientY - d.clientY) (c.clientX - d.clientX) -
         at2 (a.clientY - b.clientY) (a.clientX - b.clientX)) := by
  rw [onTouchStart_two sq at2 s a b m hm]
  rw [onTouchMove_two sq at2
    { s with
      isDragging := false, isTwoFinger := true,
      initialDistance := sq ((a.clientX - b.clientX) * (a.clientX - b.clientX) +
        (a.clientY - b.clientY) * (a.clientY - b.clientY)),
      initialScale := m.scale,
      initialAngle := at2 (a.clientY - b.clientY) (a.clientX - b.clientX),
      initialModelRotation := m.rotY } c d m hm rfl]
  exact ⟨_, rfl, rfl⟩

theorem twist_rotation_formula_witness :
    ∃ m2, (onTouchMove (fun q => q) (fun p q => p + q)
        (onTouchStart (fun q => q) (fun p q => p + q) exAR [⟨0, 0⟩, ⟨3, 4⟩])
        [⟨1, 1⟩, ⟨2, 2⟩]).currentModel = some m2 ∧
      m2.rotY = exModel.rotY -
        ((((1 : ℚ) - 2) + ((1 : ℚ) - 2)) - (((0 : ℚ) - 4) + ((0 : ℚ) - 3))) :=
  twist_rotation_formula (fun q => q) (fun p q => p + q) exAR
    ⟨0, 0⟩ ⟨3, 4⟩ ⟨1, 1⟩ ⟨2, 2⟩ exModel rfl

/-- Claim C10: a two-finger move frame writes the same value to all three
scale axes (so the scale is uniform afterwards, whatever it was before), and
the written model depends only on the `x` component of the scale snapshot. -/
theorem pinch_uniform_scale (sq : ℚ → ℚ) (at2 : ℚ → ℚ → ℚ) (s : ARState)
    (t0 t1 : Touch) (m : ARObject) (vy vz : ℚ)
    (hm : s.currentModel = some m) (h2 : s.isTwoFinger = true) :
    (∃ m2, (onTouchMove sq at2 s [t0, t1]).currentModel = some m2 ∧
      m2.scale.y = m2.scale.x ∧ m2.scale.z = m2.scale.x) ∧
    (onTouchMove sq at2 { s with initialScale := ⟨s.initialScale.x, vy, vz⟩ }
        [t0, t1]).currentModel =
      (onTouchMove sq at2 s [t0, t1]).currentModel := by
  rw [onTouchMove_two sq at2 s t0 t1 m hm h2,
      onTouchMove_two sq at2 { s with initialScale := ⟨s.initialScale.x, vy, vz⟩ }
        t0 t1 m hm h2]
  exact ⟨⟨_, rfl, rfl, rfl⟩, rfl⟩

theorem pinch_uniform_scale_witness :
    (∃ m2, (onTouchMove (fun q => q) (fun _ _ => 0) exAR
        [⟨0, 0⟩, ⟨3, 4⟩]).currentModel = some m2 ∧
      m2.scale.y = m2.scale.x ∧ m2.scale.z = m2.scale.x) ∧
    (onTouchMove (fun q => q) (fun _ _ => 0)
        { exAR with initialScale := ⟨exAR.initialScale.x, 7, 9⟩ }
        [⟨0, 0⟩, ⟨3, 4⟩]).currentModel =
      (onTouchMove (fun q => q) (fun _ _ => 0) exAR [⟨0, 0⟩, ⟨3, 4⟩]).currentModel :=
  pinch_uniform_scale (fun q => q) (fun _ _ => 0) exAR ⟨0, 0⟩ ⟨3, 4⟩ exModel 7 9 rfl rfl

/-- Claim C6: with a hit-test result, the reticle is placed at the hit pose;
it is visible when nothing is placed, and with a placed model it is visible
iff the hit-to-model distance strictly exceeds the deployment threshold
(0.6 in the gesture-enabled deployment, 0.5 in the second deployment), with
equality resolving to hidden. -/
theorem reticle_visibility_rule (s : ARState) (hp : Vec3) :
    (s.currentModel = none →
      (renderReticle s (some hp)).reticleVisible = true ∧
      (renderReticle s (some hp)).reticlePos = hp) ∧
    (∀ m, s.currentModel = some m →
      ((renderReticle s (some hp)).reticleVisible = true ↔
        ((3/5 : ℚ) : ℝ) < Real.sqrt ((distSq hp m.pos : ℚ) : ℝ)) ∧
      (renderReticle s (some hp)).reticlePos = hp ∧
      (distSq hp m.pos = 9/25 → (renderReticle s (some hp)).reticleVisible = false)) ∧
    (∀ p : Vec3, shouldShowReticleBasic (some p) hp = true ↔
      ((1/2 : ℚ) : ℝ) < Real.sqrt ((distSq hp p : ℚ) : ℝ)) := by
  refine ⟨fun hm => ?_, fun m hm => ?_, fun p => ?_⟩
  · constructor <;> simp [renderReticle, shouldShowReticle, hm]
  · have hvis : (renderReticle s (some hp)).reticleVisible = true ↔
        (9/25 : ℚ) < distSq hp m.pos := by
      by_cases hlt : (9/25 : ℚ) < distSq hp m.pos <;>
        simp [renderReticle, shouldShowReticle, hm, hlt]
    refine ⟨?_, ?_, fun heq => ?_⟩
    · rw [hvis]
      have h2 : ((3/5 : ℚ) ^ 2) = 9/25 := by norm_num
      rw [← h2, ← rat_lt_sqrt_iff (3/5) (distSq hp m.pos) (by norm_num)]
    · by_cases hss : shouldShowReticle { s with reticlePos := hp } = true <;>
        simp [renderReticle, hss]
    · have hv2 := hvis
      rw [heq] at hv2
      simpa using hv2
  · have h2 : ((1/2 : ℚ) ^ 2) = 1/4 := by norm_num
    simp only [shouldShowReticleBasic, decide_eq_true_eq]
    rw [← h2, ← rat_lt_sqrt_iff (1/2) (distSq hp p) (by norm_num)]

theorem reticle_visibility_rule_witness :
    (renderReticle exARUnplaced (some ⟨2, 0, 2⟩)).reticleVisible = true ∧
    (renderReticle exARUnplaced (some ⟨2, 0, 2⟩)).reticlePos = ⟨2, 0, 2⟩ :=
  (reticle_visibility_rule exARUnplaced ⟨2, 0, 2⟩).1 rfl

theorem onTouchStart_fields (sq : ℚ → ℚ) (at2 : ℚ → ℚ → ℚ) (s : ARState)
    (ts : List Touch) :
    (onTouchStart sq at2 s ts).currentModel = s.currentModel ∧
    (onTouchStart sq at2 s ts).placedCount = s.placedCount := by
  rcases hm : s.currentModel with _ | m <;>
    rcases ts with _ | ⟨t0, _ | ⟨t1, _ | rest⟩⟩ <;>
      simp [onTouchStart, hm]

theorem onTouchMove_fields (sq : ℚ → ℚ) (at2 : ℚ → ℚ → ℚ) (s : ARState)
    (ts : List Touch) :
    ((onTouchMove sq at2 s ts).currentModel = none ↔ s.currentModel = none) ∧
    (onTouchMove sq at2 s ts).placedCount = s.placedCount := by
  rcases hm : s.currentModel with _ | m <;>
    rcases ts with _ | ⟨t0, _ | ⟨t1, _ | rest⟩⟩ <;>
      cases h2 : s.isTwoFinger <;>
        simp [onTouchMove, hm, h2]

theorem renderReticle_fields (s : ARState) (hit : Option Vec3) :
    (renderReticle s hit).currentModel = s.currentModel ∧
    (renderReticle s hit).placedCount = s.placedCount := by
  rcases hit with _ | hp
  · simp [renderReticle]
  · by_cases hss : shouldShowReticle { s with reticlePos := hp } = true <;>
      simp [renderReticle, hss]

theorem onSelect_PlacedInv (s : ARState) (h : PlacedInv s) : PlacedInv (onSelect s) := by
  obtain ⟨h1, h2⟩ := h
  unfold onSelect
  split_ifs with hd hv
  · exact ⟨h1, h2⟩
  · rcases hg : s.loadedGLTF with _ | tpl
    · simpa [PlacedInv] using ⟨h1, h2⟩
    · rcases hm : s.currentModel with _ | m
      · have h0 := h2 hm
        simp [PlacedInv]
        omega
      · simp [PlacedInv]
        exact h1
  · exact ⟨h1, h2⟩

theorem arStep_PlacedInv (sq : ℚ → ℚ) (at2 : ℚ → ℚ → ℚ) (s : ARState) (e : AREvent)
    (h : PlacedInv s) : PlacedInv (arStep sq at2 s e) := by
  cases e with
  | touchstartE ts =>
    have hf := onTouchStart_fields sq at2 s ts
    show PlacedInv (onTouchStart sq at2 s ts)
    exact ⟨by rw [hf.2]; exact h.1, fun hn => by rw [hf.2]; exact h.2 (hf.1.symm.trans hn)⟩
  | touchmoveE ts =>
    have hf := onTouchMove_fields sq at2 s ts
    show PlacedInv (onTouchMove sq at2 s ts)
    exact ⟨by rw [hf.2]; exact h.1, fun hn => by rw [hf.2]; exact h.2 (hf.1.mp hn)⟩
  | touchendE => exact h
  | timerE => exact h
  | selectE => exact onSelect_PlacedInv s h
  | renderE hit =>
    have hf := renderReticle_fields s hit
    show PlacedInv (renderReticle s hit)
    exact ⟨by rw [hf.2]; exact h.1, fun hn => by rw [hf.2]; exact h.2 (hf.1.symm.trans hn)⟩

theorem arRun_PlacedInv (sq : ℚ → ℚ) (at2 : ℚ → ℚ → ℚ) (s : ARState)
    (evs : List AREvent) (h : PlacedInv s) : PlacedInv (arRun sq at2 s evs) := by
  induction evs generalizing s with
  | nil => exact h
  | cons e rest ih =>
    simp only [arRun, List.foldl_cons]
    exact ih _ (arStep_PlacedInv sq at2 s e h)

/-- Claim C7: a select is a no-op while dragging, with a hidden reticle, or
with no loaded template; otherwise it clones the template at the reticle
position when nothing is placed (adding exactly one object), and re-anchors
the existing object without creating a second instance when one is placed —
so at most one placed object ever exists. -/
theorem select_placement_rule (s : ARState) :
    (s.isDragging = true → onSelect s = s) ∧
    (s.reticleVisible = false → onSelect s = s) ∧
    (s.loadedGLTF = none → onSelect s = s) ∧
    (∀ tpl, s.isDragging = false → s.reticleVisible = true → s.loadedGLTF = some tpl →
      (s.currentModel = none →
        onSelect s = { s with currentModel := some { tpl with pos := s.reticlePos },
                              placedCount := s.placedCount + 1 }) ∧
      (∀ m, s.currentModel = some m →
        onSelect s = { s with currentModel := some { m with pos := s.reticlePos } })) ∧
    (∀ (sq : ℚ → ℚ) (at2 : ℚ → ℚ → ℚ) (evs : List AREvent),
      s.currentModel = none → s.placedCount = 0 →
      (arRun sq at2 s evs).placedCount ≤ 1) := by
  refine ⟨fun hd => by simp [onSelect, hd],
    fun hv => ?_, fun hg => ?_,
    fun tpl hd hv hg => ⟨fun hm => ?_, fun m hm => ?_⟩,
    fun sq at2 evs hm hpc => ?_⟩
  · cases hd : s.isDragging <;> simp [onSelect, hd, hv]
  · cases hd : s.isDragging <;> cases hv : s.reticleVisible <;>
      simp [onSelect, hd, hv, hg]
  · simp [onSelect, hd, hv, hg, hm]
  · simp [onSelect, hd, hv, hg, hm]
  · exact (arRun_PlacedInv sq at2 s evs ⟨by omega, fun _ => hpc⟩).1

theorem select_placement_rule_witness :
    onSelect exAR = { exAR with currentModel := some { exModel with pos := exAR.reticlePos } } :=
  ((select_placement_rule exAR).2.2.2.1 exTpl rfl rfl rfl).2 exModel rfl

/-- Claim C8 counterexample: after a two-finger gesture (single-finger
touchstart, then two-finger touchstart) ends with `touchend`, a `select`
inside the cool-down window — before the scheduled timer clears the flags —
DOES re-anchor the placed object to the reticle position, because the
two-finger branch of `touchstart` set `isDragging` to `false` and `onSelect`
only checks `isDragging`. -/
theorem debounce_two_finger_counterexample :
    (arRun (fun q => q) (fun _ _ => 0) exAR
      [AREvent.touchstartE [⟨0, 0⟩], AREvent.touchstartE [⟨0, 0⟩, ⟨3, 4⟩],
       AREvent.touchendE, AREvent.selectE]).currentModel =
      some { exModel with pos := exAR.reticlePos } ∧
    exAR.currentModel = some exModel ∧
    exModel.pos.x = 5 ∧ exAR.reticlePos.x = 1 ∧ (5 : ℚ) ≠ 1 :=
  ⟨rfl, rfl, rfl, rfl, by norm_num⟩

/-- Claim C8, amended: the cool-down debounce protects single-finger drags —
a select arriving after a one-finger drag's `touchend` but before the timer
clears the flags is a no-op, because `isDragging` is still `true`; a select
while `isDragging` holds never changes the state.  (After a two-finger
gesture the select is not suppressed, since the two-finger `touchstart`
cleared `isDragging`.) -/
theorem debounce_single_finger (sq : ℚ → ℚ) (at2 : ℚ → ℚ → ℚ) (s : ARState)
    (t : Touch) (m : ARObject) (hm : s.currentModel = some m) :
    (arRun sq at2 s [AREvent.touchstartE [t], AREvent.touchendE, AREvent.selectE] =
     arRun sq at2 s [AREvent.touchstartE [t], AREvent.touchendE]) ∧
    (∀ s2 : ARState, s2.isDragging = true → onSelect s2 = s2) := by
  have hsel : ∀ s2 : ARState, s2.isDragging = true → onSelect s2 = s2 := by
    intro s2 h2
    simp [onSelect, h2]
  refine ⟨?_, hsel⟩
  simp only [arRun, List.foldl_cons, List.foldl_nil, arStep]
  rw [onTouchStart_one sq at2 s t m hm]
  exact hsel _ rfl

theorem debounce_single_finger_witness :
    arRun (fun q => q) (fun _ _ => 0) exAR
        [AREvent.touchstartE [⟨0, 0⟩], AREvent.touchendE, AREvent.selectE] =
      arRun (fun q => q) (fun _ _ => 0) exAR
        [AREvent.touchstartE [⟨0, 0⟩], AREvent.touchendE] :=
  (debounce_single_finger (fun q => q) (fun _ _ => 0) exAR ⟨0, 0⟩ exModel rfl).1

end AR
